import Mathlib

/-!
Verification of the TruthSeeker front end (React client of the
RealTimeSpeechValidation repository).

The development shallowly embeds the event handlers of the three routed
views (`src/frontend/src/App.js`, `src/frontend/src/AdminPanel.js` and the
YouTube Live view) as pure Lean functions.  Browser/JS primitives used by
the code are embedded over the character list of a `String`:
`String.prototype.toLowerCase` becomes `jsToLower`,
`String.prototype.trim` becomes `jsTrim`, JS string truthiness (only the
empty string is falsy) becomes emptiness of the character list, and
`a || b` on a possibly-absent string becomes `jsOrElse`.  String length is
counted in characters (code points); the inputs the claims range over are
within the plane where this agrees with the JS `.length` count for the
distinctions being made.

Callback side effects (`setTimeout`, `console.log`, React `setState`) are
embedded as explicit effect lists or as state-transformer functions, so
that "the handler schedules exactly one reconnect with delay 3000" is a
statement about the value a handler returns.
-/

/-- Embedding of JS `String.prototype.toLowerCase` (ASCII range, which is
all the code compares against): lower-case every character. -/
def jsToLower (s : String) : String := ⟨s.data.map Char.toLower⟩

/-- Embedding of JS `String.prototype.trim`: drop whitespace from both
ends of the string. -/
def jsTrim (s : String) : String :=
  ⟨((s.data.dropWhile Char.isWhitespace).reverse.dropWhile Char.isWhitespace).reverse⟩

/-- Embedding of the JS idiom `a || fallback` for a possibly-absent string
field: `undefined` and the empty string are falsy. -/
def jsOrElse (o : Option String) (fallback : String) : String :=
  match o with
  | some e => if e.data.isEmpty then fallback else e
  | none => fallback

/-! ## Data model (spec section 3, as consumed by the client code) -/

/-- A cited source of a fact-check result: `{title, url}`. -/
structure FactSource where
  title : String
  url : String
deriving Repr, DecidableEq

/-- A fact-check record as read by the rendering code: statement text,
verdict string, confidence score, explanation, sources, creation time. -/
structure FactCheckResult where
  statement : String
  verdict : String
  confidence_score : ℚ
  explanation : String
  sources : List FactSource
  created_at : Nat
deriving Repr, DecidableEq

/-- A transcript segment as rendered by the YouTube Live view. -/
structure TranscriptSegment where
  transcript : String
  timestamp : Nat
deriving Repr, DecidableEq

/-- The video-session object stored in the YouTube Live view's
`videoSession` state and in the admin panel's `currentSession` state.  A
`current_session` WebSocket payload may additionally carry embedded
`fact_checks` / `transcript_segments` lists, read with `|| []`. -/
structure SessionData where
  video_id : String
  title : String
  duration : Nat
  is_live : Bool
  created_at : String
  fact_checks : Option (List FactCheckResult)
  transcript_segments : Option (List TranscriptSegment)
deriving Repr, DecidableEq

/-! ## C1: WebSocket `onclose` handlers (App.js 129-133, YouTubeLive 41-47) -/

/-- A task a handler can hand to `setTimeout`. -/
inductive ScheduledTask where
  | reconnect
  | restartRecognition
deriving Repr, DecidableEq

/-- An observable effect of a close/end handler. -/
inductive HandlerEffect where
  | log (msg : String)
  | setConnected (b : Bool)
  | schedule (delayMs : Nat) (task : ScheduledTask)
deriving Repr, DecidableEq

/-- `ws.onclose` of the solo TruthSeeker view (App.js lines 129-133):
log, then `setTimeout(connectWebSocket, 3000)`. -/
def soloWsOnClose : List HandlerEffect :=
  [ .log "WebSocket disconnected",
    .schedule 3000 .reconnect ]

/-- `ws.onclose` of the YouTube Live view (part_001 lines 41-47): log,
`setIsConnected(false)`, then `setTimeout(connectWebSocket, 3000)` stored
in `reconnectTimeoutRef`. -/
def youtubeWsOnClose : List HandlerEffect :=
  [ .log "YouTube Live WebSocket disconnected",
    .setConnected false,
    .schedule 3000 .reconnect ]

/-- The delays of all reconnection attempts a handler schedules. -/
def scheduledReconnectDelays (effects : List HandlerEffect) : List Nat :=
  effects.filterMap fun e =>
    match e with
    | .schedule d .reconnect => some d
    | _ => none

/-! ## C2: `recognition.onend` (App.js 87-100) -/

/-- The delays of all recognition restarts a handler schedules. -/
def scheduledRestartDelays (effects : List HandlerEffect) : List Nat :=
  effects.filterMap fun e =>
    match e with
    | .schedule d .restartRecognition => some d
    | _ => none

/-- `recognition.onend` (App.js lines 87-100): always logs; when
`isListening` holds it schedules a restart attempt after 100 ms, otherwise
it does nothing further. -/
def recognitionOnEnd (isListening : Bool) : List HandlerEffect :=
  .log "Speech recognition ended" ::
    (if isListening then [.schedule 100 .restartRecognition] else [])

/-- The body of the scheduled restart (App.js lines 91-98): try
`recognition.start()`; on an exception set `isListening` to false.
Returns (whether `start` was invoked, the resulting `isListening`). -/
def runScheduledRestart (startThrows : Bool) (isListening : Bool) : Bool × Bool :=
  if startThrows then (true, false) else (true, isListening)

/-! ## C7: verdict rendering (App.js 236-260, identical in part_001 131-155) -/

/-- `getVerdictColor` (App.js lines 236-247): switch on the lower-cased
verdict. -/
def getVerdictColor (verdict : String) : String :=
  if jsToLower verdict = "true" then
    "text-green-400 bg-green-900/20 border-green-500/30"
  else if jsToLower verdict = "false" then
    "text-red-400 bg-red-900/20 border-red-500/30"
  else if jsToLower verdict = "partially true" then
    "text-yellow-400 bg-yellow-900/20 border-yellow-500/30"
  else
    "text-gray-400 bg-gray-900/20 border-gray-500/30"

/-- `getVerdictIcon` (App.js lines 249-260): switch on the lower-cased
verdict. -/
def getVerdictIcon (verdict : String) : String :=
  if jsToLower verdict = "true" then "✓"
  else if jsToLower verdict = "false" then "✗"
  else if jsToLower verdict = "partially true" then "⚠"
  else "?"

/-! ## C8: `recognition.onresult`, final-transcript branch (App.js 62-69) -/

/-- The final-transcript branch of `recognition.onresult` (App.js lines
62-69): when `finalTranscript` is truthy (non-empty) and its trimmed form
is longer than 10 characters, `processSentenceForFactCheck` is called on
the trimmed form; otherwise it is not called.  Returns the argument passed
to `processSentenceForFactCheck`, if any. -/
def speechOnResultFinal (finalTranscript : String) : Option String :=
  if finalTranscript.data.isEmpty then none
  else if (jsTrim finalTranscript).data.length > 10 then
    some (jsTrim finalTranscript)
  else none

/-! ## C4: health check and demo banner (App.js 155-167, 276-281) -/

/-- The `checkHealth` effect (App.js lines 155-167): on a successful fetch
the new `apiConfigured` state is the response's
`perplexity_api_configured` field; on a fetch error only a log happens and
the state is unchanged. -/
def applyHealthResponse (resp : Option Bool) (apiConfigured : Bool) : Bool :=
  match resp with
  | some flag => flag
  | none => apiConfigured

/-- The render condition of the banner (App.js lines 276-281): the Demo
Mode banner is rendered exactly when `!apiConfigured`. -/
def demoBannerShown (apiConfigured : Bool) : Bool := !apiConfigured

/-! ## C5: YouTube Live WebSocket dispatch (part_001 97-129) -/

/-- The React state of the YouTube Live view touched by
`handleWebSocketMessage`. -/
structure YTState where
  videoSession : Option SessionData
  factChecks : List FactCheckResult
  transcriptSegments : List TranscriptSegment
  loading : Bool
  error : String
deriving Repr, DecidableEq

/-- The JSON messages of the YouTube Live socket, discriminated by their
`type` field (part_001 lines 97-129). -/
inductive WsMessage where
  | currentSession (data : Option SessionData)
  | newFactCheck (data : FactCheckResult)
  | newTranscript (data : TranscriptSegment)
  | videoChanged (data : Option SessionData)
  | errorMessage (message : String)
  | other (ty : String)
deriving Repr, DecidableEq

/-- `handleWebSocketMessage` (part_001 lines 97-129). -/
def handleWebSocketMessage (msg : WsMessage) (st : YTState) : YTState :=
  match msg with
  | .currentSession data =>
      match data with
      | some d =>
          { st with
            videoSession := some d
            factChecks := d.fact_checks.getD []
            transcriptSegments := d.transcript_segments.getD []
            loading := false }
      | none => { st with loading := false }
  | .newFactCheck d => { st with factChecks := st.factChecks ++ [d] }
  | .newTranscript d => { st with transcriptSegments := st.transcriptSegments ++ [d] }
  | .videoChanged d =>
      { st with videoSession := d, factChecks := [], transcriptSegments := [] }
  | .errorMessage m => { st with error := m }
  | .other _ => st

/-! ## C6: admin `handleSetVideo` (AdminPanel.js 44-87) -/

/-- The admin-panel state touched by `handleSetVideo`. -/
structure AdminState where
  videoUrl : String
  currentSession : Option SessionData
  message : String
deriving Repr, DecidableEq

/-- The JSON body of a `/api/youtube/set-video` response. -/
structure SetVideoData where
  success : Bool
  error : Option String
  video_id : String
  title : String
  duration : Nat
  is_live : Bool
deriving Repr, DecidableEq

/-- Outcome of the `fetch` in `handleSetVideo`: a thrown network error, or
a response with its `ok` flag and parsed JSON body. -/
inductive FetchResult where
  | netError (msg : String)
  | response (ok : Bool) (data : SetVideoData)
deriving Repr, DecidableEq

/-- `handleSetVideo` (AdminPanel.js lines 44-87).  Returns the new state
and whether the request was sent.  When the trimmed URL is empty the
function returns before fetching; otherwise on `response.ok && data.success`
it replaces `currentSession` with the returned video fields (stamping
`created_at` with the current time) and clears the URL input; on any other
response it only sets the error message `❌ Error: <data.error || fallback>`. -/
def handleSetVideo (st : AdminState) (fetch : FetchResult) (now : String) :
    AdminState × Bool :=
  if (jsTrim st.videoUrl).data.isEmpty then
    ({ st with message := "Please enter a valid YouTube URL" }, false)
  else
    match fetch with
    | .netError m => ({ st with message := "❌ Network error: " ++ m }, true)
    | .response ok data =>
        if ok && data.success then
          ({ videoUrl := ""
             currentSession := some
               { video_id := data.video_id
                 title := data.title
                 duration := data.duration
                 is_live := data.is_live
                 created_at := now
                 fact_checks := none
                 transcript_segments := none }
             message := "✅ Video set successfully: " ++ data.title }, true)
        else
          ({ st with message := "❌ Error: " ++ jsOrElse data.error "Failed to set video" }, true)

/-! ## C9: `processSentenceForFactCheck` debouncing (App.js 169-209) -/

/-- Timer semantics of `processSentenceForFactCheck` (App.js lines
169-209).  Each call at time `t` with statement `s` first clears any
pending timer that has not yet fired, then arms a fresh timer that
transmits `s` at time `t + 1000`.  `debounceRun calls pending` runs a
time-ordered list of calls from a given pending timer and returns the
statements transmitted, in order; a timer still pending after the last
call fires undisturbed. -/
def debounceRun : List (Nat × String) → Option (Nat × String) → List String
  | [], pending =>
      match pending with
      | none => []
      | some p => [p.2]
  | c :: rest, pending =>
      (match pending with
       | some p => if p.1 ≤ c.1 then [p.2] else []
       | none => []) ++ debounceRun rest (some (c.1 + 1000, c.2))

/-- Any statement transmitted by `debounceRun` is either the statement of
one of the calls or the statement of the initial pending timer. -/
theorem debounceRun_mem (calls : List (Nat × String)) (pending : Option (Nat × String))
    (x : String) (hx : x ∈ debounceRun calls pending) :
    x ∈ calls.map Prod.snd ∨ ∃ t, pending = some (t, x) := by
  induction calls generalizing pending with
  | nil =>
      cases pending with
      | none => simp [debounceRun] at hx
      | some p =>
          simp [debounceRun] at hx
          exact Or.inr ⟨p.1, by simp [hx]⟩
  | cons c rest ih =>
      simp only [debounceRun, List.mem_append] at hx
      rcases hx with hx | hx
      · cases pending with
        | none => simp at hx
        | some p =>
            by_cases hf : p.1 ≤ c.1
            · simp [hf] at hx
              exact Or.inr ⟨p.1, by simp [hx]⟩
            · simp [hf] at hx
      · rcases ih (some (c.1 + 1000, c.2)) hx with h | ⟨t, ht⟩
        · exact Or.inl (by simp [h])
        · have : x = c.2 := by
            have := ht
            simp at this
            exact this.2.symm
          exact Or.inl (by simp [this])

/-! ## C10: admin authentication (AdminPanel.js 33-42) -/

/-- The admin-panel state touched by `handleAuth`. -/
structure AuthState where
  isAuthenticated : Bool
  message : String
deriving Repr, DecidableEq

/-- `handleAuth` (AdminPanel.js lines 33-42): grant access when the
entered key equals the literal string or the value of
`REACT_APP_ADMIN_KEY` (`adminKey === undefined` is impossible for a string
input, so an unset variable never matches); otherwise only set the message. -/
def handleAuth (adminKey : String) (envKey : Option String) (st : AuthState) : AuthState :=
  if adminKey = "admin123" ∨ envKey = some adminKey then
    { st with isAuthenticated := true, message := "" }
  else
    { st with message := "Invalid admin key" }

/-! ## C3: the `/api/fact-check` endpoint (backend, modelled) -/

/-- The verdict enum of the data model. -/
def verdictValues : List String := ["True", "False", "Partially True", "Unverified"]

/-- A fact-check result is well formed when its verdict is drawn from the
enum and its confidence score lies in `[0, 1]`; being a `FactCheckResult`,
it carries the `statement`, `explanation` and `sources` fields the client
reads without a guard. -/
def factCheckWellFormed (r : FactCheckResult) : Prop :=
  r.verdict ∈ verdictValues ∧ 0 ≤ r.confidence_score ∧ r.confidence_score ≤ 1

instance (r : FactCheckResult) : Decidable (factCheckWellFormed r) := by
  unfold factCheckWellFormed
  infer_instance

/-- Modelled from the spec: the backend handler for POST `/api/fact-check`
is not under `src/` (only its client is).  Per the spec, the handler
forwards the statement to the external provider or, absent a configured
key, answers from a static mock table, and "returns a well-formed verdict
object for any non-empty statement"; an empty statement yields no verdict
object.  The mock fields stand in for the canned table. -/
def factCheckEndpoint (statement : String) : Option FactCheckResult :=
  if statement.data.isEmpty then none
  else
    some
      { statement := statement
        verdict := "Unverified"
        confidence_score := 1/2
        explanation := "Unable to verify this statement with available sources."
        sources := []
        created_at := 0 }

/-! ## Shared helper lemmas -/

/-- A non-empty string has a non-empty character list. -/
theorem ne_empty_data_isEmpty_false (s : String) (h : s ≠ "") :
    s.data.isEmpty = false := by
  cases s with
  | mk data =>
      cases data with
      | nil => exact absurd rfl h
      | cons a l => rfl

/-! ## Claim theorems -/

/-- C1: for both WebSocket clients, every firing of the socket's close
handler schedules exactly one reconnection attempt, with a fixed delay of
3000 milliseconds. -/
theorem ws_onclose_schedules_one_reconnect_3000 :
    scheduledReconnectDelays soloWsOnClose = [3000] ∧
    scheduledReconnectDelays youtubeWsOnClose = [3000] :=
  ⟨rfl, rfl⟩

/-- C2: when the speech-recognition end event fires with `isListening`
true, the handler schedules exactly one restart after 100 ms; with
`isListening` false it schedules none.  The scheduled restart always calls
`recognition.start()`; if that call throws, `isListening` becomes false,
and if it succeeds, `isListening` is unchanged. -/
theorem recognition_onend_restart_logic :
    scheduledRestartDelays (recognitionOnEnd true) = [100] ∧
    scheduledRestartDelays (recognitionOnEnd false) = [] ∧
    (∀ b : Bool, runScheduledRestart true b = (true, false)) ∧
    (∀ b : Bool, runScheduledRestart false b = (true, b)) :=
  ⟨rfl, rfl, fun _ => rfl, fun b => by cases b <;> rfl⟩

/-- C3: for every non-empty statement, the fact-check endpoint returns a
verdict object carrying all the fields the client reads without a guard
(`verdict`, `confidence_score`, `statement`, `explanation`, `sources`),
with the verdict drawn from the enum and the echoed statement. -/
theorem factCheck_endpoint_wellFormed (s : String) (h : s ≠ "") :
    ∃ r, factCheckEndpoint s = some r ∧ r.statement = s ∧ factCheckWellFormed r := by
  have hd : s.data.isEmpty = false := ne_empty_data_isEmpty_false s h
  refine ⟨{ statement := s, verdict := "Unverified", confidence_score := 1/2,
            explanation := "Unable to verify this statement with available sources.",
            sources := [], created_at := 0 }, ?_, rfl, ?_⟩
  · simp [factCheckEndpoint, hd]
  · exact ⟨by simp [verdictValues], by norm_num, by norm_num⟩

/-- C3 witness: the endpoint at the concrete statement `hello`. -/
theorem factCheck_endpoint_wellFormed_witness :
    ∃ r, factCheckEndpoint "hello" = some r ∧ r.statement = "hello" ∧
      factCheckWellFormed r :=
  factCheck_endpoint_wellFormed "hello" (by decide)

/-- C4: after a successful fetch of `/api/health`, the solo view's
`apiConfigured` state equals the response's `perplexity_api_configured`
field, and the Demo Mode banner is rendered if and only if that flag is
false. -/
theorem health_flag_reflected_and_banner :
    (∀ flag old : Bool, applyHealthResponse (some flag) old = flag) ∧
    (∀ a : Bool, demoBannerShown a = true ↔ a = false) := by
  decide

/-- C5: `video_changed` replaces the video session with the message's
data and resets both the fact-check and transcript lists to empty;
`new_fact_check` appends its data to the end of the fact-check list and
`new_transcript` appends to the end of the transcript list, each leaving
the other state fields unchanged. -/
theorem yt_ws_message_dispatch (st : YTState) (d : Option SessionData)
    (fc : FactCheckResult) (ts : TranscriptSegment) :
    handleWebSocketMessage (.videoChanged d) st =
      { st with videoSession := d, factChecks := [], transcriptSegments := [] } ∧
    handleWebSocketMessage (.newFactCheck fc) st =
      { st with factChecks := st.factChecks ++ [fc] } ∧
    handleWebSocketMessage (.newTranscript ts) st =
      { st with transcriptSegments := st.transcriptSegments ++ [ts] } :=
  ⟨rfl, rfl, rfl⟩

/-- C6: with an empty trimmed URL no request is sent and the prompt is
shown; on a response that is not ok or has `success` false the message is
the error prefix followed by the response's error text and the session is
unchanged; on an ok response with `success` true the session is replaced
by the returned video fields and the URL input is cleared. -/
theorem handleSetVideo_error_paths (st : AdminState) (f : FetchResult) (now : String) :
    ((jsTrim st.videoUrl).data.isEmpty = true →
      handleSetVideo st f now =
        ({ st with message := "Please enter a valid YouTube URL" }, false)) ∧
    (∀ (ok : Bool) (data : SetVideoData) (e : String),
      (jsTrim st.videoUrl).data.isEmpty = false →
      (ok && data.success) = false →
      data.error = some e → e.data.isEmpty = false →
      handleSetVideo st (.response ok data) now =
        ({ st with message := "❌ Error: " ++ e }, true)) ∧
    (∀ data : SetVideoData,
      (jsTrim st.videoUrl).data.isEmpty = false →
      data.success = true →
      handleSetVideo st (.response true data) now =
        ({ videoUrl := ""
           currentSession := some
             { video_id := data.video_id
               title := data.title
               duration := data.duration
               is_live := data.is_live
               created_at := now
               fact_checks := none
               transcript_segments := none }
           message := "✅ Video set successfully: " ++ data.title }, true)) := by
  refine ⟨fun hempty => ?_, fun ok data e hne hfail herr he => ?_, fun data hne hsucc => ?_⟩
  · simp [handleSetVideo, hempty]
  · simp [handleSetVideo, hne, hfail, herr, jsOrElse, he]
  · simp [handleSetVideo, hne, hsucc]

/-- C6 witness: the three paths at concrete inputs. -/
theorem handleSetVideo_error_paths_witness :
    handleSetVideo ⟨"  ", none, ""⟩ (.netError "x") "t0" =
      ({ videoUrl := "  ", currentSession := none,
         message := "Please enter a valid YouTube URL" }, false) ∧
    handleSetVideo ⟨"u", none, ""⟩
        (.response false ⟨false, some "boom", "", "", 0, false⟩) "t0" =
      ({ videoUrl := "u", currentSession := none, message := "❌ Error: boom" }, true) ∧
    handleSetVideo ⟨"u", none, ""⟩
        (.response true ⟨true, none, "vid1", "Title", 60, true⟩) "t0" =
      ({ videoUrl := ""
         currentSession := some ⟨"vid1", "Title", 60, true, "t0", none, none⟩
         message := "✅ Video set successfully: Title" }, true) := by
  refine ⟨?_, ?_, ?_⟩
  · exact (handleSetVideo_error_paths ⟨"  ", none, ""⟩ (.netError "x") "t0").1 (by decide)
  · exact (handleSetVideo_error_paths ⟨"u", none, ""⟩
      (.response false ⟨false, some "boom", "", "", 0, false⟩) "t0").2.1
      false ⟨false, some "boom", "", "", 0, false⟩ "boom" (by decide) rfl rfl (by decide)
  · exact (handleSetVideo_error_paths ⟨"u", none, ""⟩
      (.response true ⟨true, none, "vid1", "Title", 60, true⟩) "t0").2.2
      ⟨true, none, "vid1", "Title", 60, true⟩ (by decide) rfl

/-- C7: over the verdict enum the rendering functions map
case-insensitively: the icon is the check mark for True, the cross for
False, the warning sign for Partially True and the question mark for
Unverified (and for any other casing of True the check mark as well); the
colour classes are green, red, yellow and the gray default respectively. -/
theorem verdict_rendering_enum :
    getVerdictIcon "True" = "✓" ∧
    getVerdictIcon "False" = "✗" ∧
    getVerdictIcon "Partially True" = "⚠" ∧
    getVerdictIcon "Unverified" = "?" ∧
    getVerdictIcon "TRUE" = "✓" ∧
    getVerdictColor "True" = "text-green-400 bg-green-900/20 border-green-500/30" ∧
    getVerdictColor "False" = "text-red-400 bg-red-900/20 border-red-500/30" ∧
    getVerdictColor "Partially True" =
      "text-yellow-400 bg-yellow-900/20 border-yellow-500/30" ∧
    getVerdictColor "Unverified" =
      "text-gray-400 bg-gray-900/20 border-gray-500/30" := by
  decide

/-- C8: a final speech-recognition result triggers
`processSentenceForFactCheck` exactly when its trimmed transcript is
longer than 10 characters, and the argument passed is the trimmed
transcript; for trimmed length at most 10 no fact-check is initiated. -/
theorem final_transcript_factcheck_threshold (s : String) :
    speechOnResultFinal s =
      if (jsTrim s).data.length > 10 then some (jsTrim s) else none := by
  by_cases h : s.data.isEmpty
  · have hd : s.data = [] := List.isEmpty_iff.mp h
    simp [speechOnResultFinal, jsTrim, h, hd]
  · simp [speechOnResultFinal, h]

/-- C9: a `processSentenceForFactCheck` call arriving before the previous
call's 1000 ms debounce timer expires cancels that timer, so the run is
the same as if the earlier call had never happened, and the earlier
statement (unless repeated later) is never transmitted. -/
theorem debounce_cancels_pending (t1 t2 : Nat) (s1 s2 : String)
    (rest : List (Nat × String)) (h : t2 < t1 + 1000) :
    debounceRun ((t1, s1) :: (t2, s2) :: rest) none =
      debounceRun ((t2, s2) :: rest) none ∧
    (s1 ∉ ((t2, s2) :: rest).map Prod.snd →
      s1 ∉ debounceRun ((t1, s1) :: (t2, s2) :: rest) none) := by
  have hn : ¬ (t1 + 1000 ≤ t2) := Nat.not_le.mpr h
  have heq : debounceRun ((t1, s1) :: (t2, s2) :: rest) none =
      debounceRun ((t2, s2) :: rest) none := by
    simp [debounceRun, hn]
  refine ⟨heq, fun hs hmem => ?_⟩
  rw [heq] at hmem
  rcases debounceRun_mem _ _ _ hmem with hm | ⟨t, ht⟩
  · exact hs hm
  · simp at ht

/-- C9 witness: a second call 500 ms after the first cancels it. -/
theorem debounce_cancels_pending_witness :
    debounceRun [(0, "alpha"), (500, "beta")] none =
      debounceRun [(500, "beta")] none ∧
    "alpha" ∉ debounceRun [(0, "alpha"), (500, "beta")] none := by
  have h := debounce_cancels_pending 0 500 "alpha" "beta" [] (by decide)
  exact ⟨h.1, h.2 (by decide)⟩

/-- C10: starting unauthenticated, `handleAuth` grants access if and only
if the entered key is the hardcoded string or the value of the admin-key
environment variable; otherwise the state keeps `isAuthenticated` false
and only the invalid-key message is set; the hardcoded key is accepted
under every configuration. -/
theorem admin_auth_key_check (key : String) (env : Option String) (st : AuthState)
    (h : st.isAuthenticated = false) :
    ((handleAuth key env st).isAuthenticated = true ↔
      (key = "admin123" ∨ env = some key)) ∧
    (¬(key = "admin123" ∨ env = some key) →
      handleAuth key env st = { st with message := "Invalid admin key" }) ∧
    (∀ (env2 : Option String) (st2 : AuthState),
      (handleAuth "admin123" env2 st2).isAuthenticated = true) := by
  refine ⟨?_, fun hc => by simp [handleAuth, hc],
    fun env2 st2 => by simp [handleAuth]⟩
  by_cases hc : key = "admin123" ∨ env = some key
  · simp [handleAuth, hc]
  · simp [handleAuth, hc, h]

/-- C10 witness: a wrong key is rejected with the message and the
hardcoded key is accepted. -/
theorem admin_auth_key_check_witness :
    (handleAuth "wrong" none ⟨false, ""⟩).isAuthenticated = false ∧
    (handleAuth "wrong" none ⟨false, ""⟩).message = "Invalid admin key" ∧
    (handleAuth "admin123" none ⟨false, ""⟩).isAuthenticated = true := by
  have h := admin_auth_key_check "wrong" none ⟨false, ""⟩ rfl
  have heq := h.2.1 (by decide)
  exact ⟨by rw [heq], by rw [heq], h.2.2 none ⟨false, ""⟩⟩
